import Mathlib

/-!
Shallow embedding of the investigation-session engine of `gofigure-web`
(Go sources under `internal/api/handlers.go` and `internal/game/character.go`).

Conventions of the embedding:
* Go `float64` stress arithmetic is modelled over `ℚ`; the literals
  `1.3, 0.7, 1.2, 1.1` are the exact rationals `13/10, …`.
* `rand.Float64()` is modelled by a parameter `u : ℚ` with `0 ≤ u < 1`;
  the code turns it into the noise term `(u - 1/2) * 10`.
* `strings.Contains` / `strings.ToLower` are modelled on character lists;
  `String.toLower` matches Go on ASCII input, which covers every keyword
  the code scans for.
* The external text-generation collaborator (`llm.LLM`) and the Go
  standard-library JSON codec are outside the repository; they enter the
  embedding as function parameters (`llm`, `unmarshal`, `marshal`).
-/

namespace GoFigure

/-- Naive substring search on character lists: does `pat` occur contiguously
inside `text`? -/
def containsSub : List Char → List Char → Bool
  | [], pat => pat.isEmpty
  | c :: rest, pat => pat.isPrefixOf (c :: rest) || containsSub rest pat

/-- `strings.Contains (s, pat)`: `pat` occurs as a contiguous substring of `s`. -/
def strContains (s pat : String) : Bool :=
  containsSub s.toList pat.toList

/-- `strings.ToLower`, character by character (matches Go on ASCII input,
which covers all keywords the engine scans for). -/
def toLowerStr (s : String) : String :=
  String.mk (s.toList.map Char.toLower)

/-- `math.Max` on the rationals modelling the Go float64s. -/
def goMax (x y : ℚ) : ℚ := if x ≤ y then y else x

/-- `math.Min` on the rationals modelling the Go float64s. -/
def goMin (x y : ℚ) : ℚ := if x ≤ y then x else y

/-- `llm.CharacterReply` (internal/llm/ollama/ollama.go). -/
structure CharacterReply where
  response : String
  emotion  : String
deriving Repr, DecidableEq

/-- `game.Message` (internal/game/character.go); `time.Time` is modelled as `ℤ`. -/
structure Message where
  role      : String
  content   : String
  emotions  : String
  timestamp : Int
deriving Repr, DecidableEq

/-- `game.Character` (internal/game/character.go); the TTS voice data is omitted. -/
structure Character where
  name         : String
  personality  : String
  sprite       : String
  knowledge    : List String
  reliable     : Bool
  conversation : List Message
deriving Repr, DecidableEq

/-- `game.Murder` (unnamed game source): the immutable mystery snapshot. -/
structure Murder where
  title      : String
  killer     : String
  weapon     : String
  location   : String
  intro      : String
  characters : List Character
deriving Repr, DecidableEq

/-! ### Stress model (`calculateStressResponse`, internal/api/handlers.go) -/

def highStressKeywords : List String :=
  ["murder", "kill", "weapon", "blood", "death", "guilty",
   "lie", "alibi", "where were you", "motive", "why did you"]

def mediumStressKeywords : List String :=
  ["suspicious", "secret", "hidden", "truth", "evidence",
   "witness", "saw", "heard", "relationship", "money"]

def lowStressKeywords : List String :=
  ["weather", "family", "work", "hobby", "general",
   "hello", "how are", "nice day", "background"]

/-- The three keyword scans of `calculateStressResponse`, starting from the
base increase of `5.0`. -/
def stressAfterKeywords (questionLower : String) : ℚ :=
  let s1 := highStressKeywords.foldl
    (fun acc kw => if strContains questionLower kw then acc + 15 else acc) 5
  let s2 := mediumStressKeywords.foldl
    (fun acc kw => if strContains questionLower kw then acc + 8 else acc) s1
  lowStressKeywords.foldl
    (fun acc kw => if strContains questionLower kw then goMax 1 (acc - 5) else acc) s2

/-- The four personality modifiers of `calculateStressResponse`. -/
def applyPersonality (personalityLower : String) (x : ℚ) : ℚ :=
  let s4 := if strContains personalityLower "nervous" then x * (13/10) else x
  let s5 := if strContains personalityLower "calm" then s4 * (7/10) else s4
  let s6 := if strContains personalityLower "secretive" then s5 * (12/10) else s5
  if strContains personalityLower "aggressive" then s6 * (11/10) else s6

/-- The stress-state `switch` at the end of `calculateStressResponse`
(server side; note the reused `"nervous"` in the default branch). -/
def stressStateOf (newStressLevel : ℚ) : String :=
  if newStressLevel < 25 then "calm"
  else if newStressLevel < 40 then "composed"
  else if newStressLevel < 55 then "nervous"
  else if newStressLevel < 70 then "agitated"
  else if newStressLevel < 85 then "stressed"
  else "nervous"

/-- `getStressLabel` from the client (web/static/js/app.js, quoted in README). -/
def getStressLabel (stressLevel : ℚ) : String :=
  if stressLevel < 25 then "Calm"
  else if stressLevel < 40 then "Composed"
  else if stressLevel < 55 then "Nervous"
  else if stressLevel < 70 then "Agitated"
  else if stressLevel < 85 then "Stressed"
  else "Panicking"

/-- `calculateStressResponse` (internal/api/handlers.go, lines 767-848).
`u` is the `rand.Float64()` draw. -/
def calculateStressResponse (question : String) (character : Character)
    (currentStress : ℚ) (u : ℚ) : ℚ × String :=
  let stressIncrease :=
    applyPersonality (toLowerStr character.personality)
      (stressAfterKeywords (toLowerStr question)) + (u - 1/2) * 10
  let newStressLevel := goMin 100 (currentStress + stressIncrease)
  (newStressLevel, stressStateOf newStressLevel)

/-! ### Dialogue orchestrator (internal/game/character.go) -/

/-- `len(c.Conversation) == 0`. -/
def Character.IsInitialMessage (c : Character) : Bool :=
  c.conversation.length == 0

/-- Go `fmt` rendering of a `[]string` with the `%v` verb. -/
def goFormatStringSlice (l : List String) : String :=
  "[" ++ String.intercalate " " l ++ "]"

/-- The reliability instruction chosen at the top of `addQuestion`. -/
def reliabilityNote (c : Character) : String :=
  if c.reliable then "You are generally truthful and helpful."
  else "You might hide some facts, be evasive, or provide misleading information. Stay in character."

/-- The synthesized persona/system message text of `addQuestion` (the big
`fmt.Sprintf` scenario template). -/
def scenarioText (question : String) (murder : Murder) (c : Character) : String :=
  "You are roleplaying as " ++ c.name ++ " in a murder mystery game.\n\n" ++
  "CHARACTER PROFILE:\n- Name: " ++ c.name ++ "\n- Personality: " ++ c.personality ++
  "\n- " ++ reliabilityNote c ++ "\n\n" ++
  "MURDER SCENARIO:\n- Victim found in: " ++ murder.location ++
  "\n- Murder weapon: " ++ murder.weapon ++ "  \n- Actual killer: " ++ murder.killer ++
  "\n- Your knowledge about the case: " ++ goFormatStringSlice c.knowledge ++ "\n\n" ++
  "CRITICAL INSTRUCTIONS:\n- Stay completely in character\n" ++
  "- Answer the detective\x27s question based on your personality and knowledge\n" ++
  "- Keep responses concise but engaging\n" ++
  "- Don\x27t break character or mention this is a game\n" ++
  "- If you don\x27t know something, say so in character\n" ++
  "- You MUST respond in valid JSON format only\n" ++
  "- Reply in this EXACT JSON structure: \x7b\"response\": \"your character response here\", \"emotion\": \"your emotional state\"\x7d\n" ++
  "- Do NOT include any text before or after the JSON\n" ++
  "- Valid emotions: happy, sad, angry, nervous, confident, suspicious, worried, neutral, etc.\n\n" ++
  "Detective\x27s question: \"" ++ question ++ "\"\n\n" ++
  "Your JSON response as " ++ c.name ++ ":"

/-- The transcript entry for a follow-up question (`latest` in `addQuestion`). -/
def followUpText (question : String) : String :=
  "Detective\x27s follow up question: " ++ question ++
  "\n\nIMPORTANT: You MUST respond in this exact JSON format: \x7b\"response\": \"your character response here\", \"emotion\": \"your emotional state\"\x7d"

/-- `Character.addQuestion` (internal/game/character.go, lines 89-137):
seeds the transcript with the persona message on first contact, then appends
the player's question; `now` models `time.Now()`. -/
def addQuestion (now : Int) (question : String) (murder : Murder)
    (c : Character) : Character :=
  if c.IsInitialMessage then
    { c with conversation :=
        [⟨"system", scenarioText question murder c, "", now⟩,
         ⟨"user", "Detective\x27s question: " ++ question, "", now⟩] }
  else
    { c with conversation := c.conversation ++ [⟨"user", followUpText question, "", now⟩] }

/-- `strings.Index (s, "{")` for a single character: first index or `-1`. -/
def goIndexOf (s : String) (c : Char) : Int :=
  match s.toList.findIdx? (fun a => a == c) with
  | some n => (n : Int)
  | none => -1

/-- `strings.LastIndex (s, "}")` for a single character: last index or `-1`. -/
def goLastIndexOf (s : String) (c : Char) : Int :=
  match s.toList.reverse.findIdx? (fun a => a == c) with
  | some n => ((s.toList.length - 1 - n : Nat) : Int)
  | none => -1

/-- `Character.extractJSONFromResponse`: recover a reply object from the
substring between the first `\x7b` and the last `\x7d`; `unmarshal` models
`json.Unmarshal` into `llm.CharacterReply`. -/
def extractJSONFromResponse (unmarshal : String → Option CharacterReply)
    (response : String) : Option CharacterReply :=
  let start := goIndexOf response '\x7b'
  let stop := goLastIndexOf response '\x7d'
  if start ≠ -1 ∧ stop ≠ -1 ∧ stop > start then
    unmarshal (String.mk ((response.toList.drop start.toNat).take (stop.toNat + 1 - start.toNat)))
  else none

/-- `Character.GetCharacterResponse` (internal/game/character.go, lines 39-62):
the layered parse of the collaborator's raw reply. `llm` models the
collaborator's `GenerateResponse`. -/
def GetCharacterResponse (unmarshal : String → Option CharacterReply)
    (llm : String → Except String String) (prompt : String) :
    Except String CharacterReply :=
  match llm prompt with
  | .error e => .error e
  | .ok resp =>
    match unmarshal resp with
    | some reply => .ok reply
    | none =>
      match extractJSONFromResponse unmarshal resp with
      | some extractedReply => .ok extractedReply
      | none => .ok ⟨resp, "neutral"⟩

/-- `Character.AskQuestion` (internal/game/character.go, lines 65-87):
appends the question, serializes the whole transcript (`marshal` models
`json.Marshal`), queries the collaborator and, on success, appends the
assistant reply. The returned `Character` carries the mutated transcript. -/
def AskQuestion (now : Int) (llm : String → Except String String)
    (unmarshal : String → Option CharacterReply) (marshal : List Message → String)
    (question : String) (murder : Murder) (c : Character) :
    Except String CharacterReply × Character :=
  let c1 := addQuestion now question murder c
  let prompt := marshal c1.conversation
  match GetCharacterResponse unmarshal llm prompt with
  | .error e => (.error e, c1)
  | .ok resp =>
    (.ok resp, { c1 with conversation :=
        c1.conversation ++ [⟨"assistant", resp.response, resp.emotion, now⟩] })

/-! ### Session lifecycle (internal/api/handlers.go) -/

/-- `api.GameSession`; the `*time.Ticker` is modelled by `tickerRunning`
(`Timer.Stop()` sets it to `false`), `time.Time` by `ℤ` seconds. -/
structure GameSession where
  userID : Nat
  murder : Murder
  remainingTime : Int
  timerEnabled : Bool
  gameOver : Bool
  startedAt : Int
  questionsAsked : Nat
  tickerRunning : Bool
deriving Repr, DecidableEq

/-- The request-shaped errors of the handlers relevant to the session engine. -/
inductive ApiError
  | gameOver
  | characterNotFound
  | collaboratorUnavailable (msg : String)
deriving Repr, DecidableEq

/-- One iteration of the countdown goroutine body started by `StartGame`
(internal/api/handlers.go, lines 143-160). A stopped ticker delivers no
tick, hence the `tickerRunning` guard. -/
def tick (s : GameSession) : GameSession :=
  if s.tickerRunning then
    if s.timerEnabled && !s.gameOver then
      let r := s.remainingTime - 1
      if r ≤ 0 then { s with remainingTime := r, gameOver := true, tickerRunning := false }
      else { s with remainingTime := r }
    else s
  else s

/-- `ToggleTimer` (internal/api/handlers.go, lines 418-441): flips
`TimerEnabled` and reports the new value; note the absence of a
`GameOver` check. -/
def toggleTimer (s : GameSession) : GameSession × Bool :=
  let s1 := { s with timerEnabled := !s.timerEnabled }
  (s1, s1.timerEnabled)

/-- `GetTimer` (internal/api/handlers.go, lines 392-415): read-only view
`(remaining_time, timer_enabled, game_over)`. -/
def getTimer (s : GameSession) : Int × Bool × Bool :=
  (s.remainingTime, s.timerEnabled, s.gameOver)

/-- The verdict payload of `MakeAccusation`. -/
structure AccusationResponse where
  correct : Bool
  killer : String
  weapon : String
  location : String
  timeSpent : Int
  questions : Nat
  message : String
deriving Repr, DecidableEq

/-- `MakeAccusation` (internal/api/handlers.go, lines 284-389): rejects a
finished game, otherwise compares the suspect to the killer by string
equality, marks the game over, stops the ticker and reveals the full
solution; `now` models `time.Now()` for the elapsed-time computation. -/
def makeAccusation (now : Int) (suspect : String) (s : GameSession) :
    Except ApiError AccusationResponse × GameSession :=
  if s.gameOver then (.error .gameOver, s)
  else
    let correct := suspect == s.murder.killer
    let s1 := { s with gameOver := true, tickerRunning := false }
    let timeSpent := now - s.startedAt
    let message :=
      if correct then
        "🎉 Congratulations! You correctly identified " ++ s.murder.killer ++ " as the killer!"
      else
        "❌ Sorry, that\x27s incorrect. The real killer was " ++ s.murder.killer ++ "."
    (.ok ⟨correct, s.murder.killer, s.murder.weapon, s.murder.location,
          timeSpent, s.questionsAsked, message⟩, s1)

/-- The Go loop over `session.Murder.Characters` taking the address of the
first name match: first matching index and element. -/
def goFindCharacter : List Character → String → Option (Nat × Character)
  | [], _ => none
  | c :: cs, name =>
    if c.name == name then some (0, c)
    else
      match goFindCharacter cs name with
      | some (i, ch) => some (i + 1, ch)
      | none => none

/-- The ask response body (`api.CharacterResponse`). -/
structure CharacterResponse where
  character : String
  question : String
  response : String
  emotion : String
  stressLevel : ℚ
  stressChange : ℚ
  stressState : String
deriving Repr, DecidableEq

/-- `AskCharacter` (internal/api/handlers.go, lines 192-281): rejects a
finished game, finds the character, increments the questions counter,
computes the stress response, then queries the collaborator through
`AskQuestion`; the mutated character is written back through the pointer
into `session.Murder.Characters`. -/
def askCharacter (now : Int) (llm : String → Except String String)
    (unmarshal : String → Option CharacterReply) (marshal : List Message → String)
    (characterName question : String) (currentStress u : ℚ)
    (s : GameSession) : Except ApiError CharacterResponse × GameSession :=
  if s.gameOver then (.error .gameOver, s)
  else
    match goFindCharacter s.murder.characters characterName with
    | none => (.error .characterNotFound, s)
    | some (i, character) =>
      let s1 := { s with questionsAsked := s.questionsAsked + 1 }
      let stress := calculateStressResponse question character currentStress u
      let (reply, character2) := AskQuestion now llm unmarshal marshal question s.murder character
      let s2 := { s1 with murder :=
        { s1.murder with characters := s1.murder.characters.set i character2 } }
      match reply with
      | .error e => (.error (.collaboratorUnavailable e), s2)
      | .ok rep =>
        (.ok ⟨characterName, question, rep.response, rep.emotion,
              stress.1, stress.1 - currentStress, stress.2⟩, s2)

/-! ### Concrete fixtures used by witnesses and counterexamples -/

/-- A two-character mystery in the shape of the bundled mystery files. -/
def mysteryEx : Murder :=
  { title := "The Blackwood Manor Murder", killer := "Eleanor", weapon := "candlestick",
    location := "library", intro := "A stormy night.",
    characters :=
      [{ name := "Eleanor", personality := "nervous", sprite := "",
         knowledge := ["was in the cellar"], reliable := false, conversation := [] },
       { name := "James", personality := "calm", sprite := "", knowledge := [],
         reliable := true, conversation := [] }] }

/-- A freshly started session for `mysteryEx` (the `StartGame` initial state
with the one-hour countdown). -/
def activeSessionEx : GameSession :=
  { userID := 7, murder := mysteryEx, remainingTime := 3600, timerEnabled := true,
    gameOver := false, startedAt := 0, questionsAsked := 0, tickerRunning := true }

/-- The same session after its game has ended. -/
def finishedSessionEx : GameSession :=
  { activeSessionEx with gameOver := true, tickerRunning := false }

/-- The start state of the countdown scenario: two seconds on the clock. -/
def sessionTimer2 : GameSession :=
  { activeSessionEx with remainingTime := 2 }

/-- A character whose personality matches only the `"calm"` modifier. -/
def calmCharEx : Character :=
  ⟨"Marlowe", "calm", "", [], true, []⟩

/-- The transcript invariant of the data model: once non-empty, the first
entry is the (unique) system message; no later entry carries the system role. -/
def firstIsSystemOnce : List Message → Prop
  | [] => True
  | m :: rest => m.role = "system" ∧ ∀ m2 ∈ rest, m2.role ≠ "system"

/-- The raw collaborator reply of the worked example in the spec. -/
def exampleReplyRaw : String :=
  "Sure! \x7b\"response\":\"I was home.\",\"emotion\":\"nervous\"\x7d Thanks."

/-- The brace-delimited substring of `exampleReplyRaw`. -/
def exampleReplyJSON : String :=
  "\x7b\"response\":\"I was home.\",\"emotion\":\"nervous\"\x7d"

/-! ## Helper lemmas -/

theorem containsSub_of_isPrefixOf (t p : List Char) (h : p.isPrefixOf t = true) :
    containsSub t p = true := by
  cases t with
  | nil =>
    cases p with
    | nil => simp [containsSub]
    | cons a as => simp at h
  | cons c rest => simp [containsSub, h]

theorem containsSub_cons (c : Char) (t p : List Char) (h : containsSub t p = true) :
    containsSub (c :: t) p = true := by
  simp [containsSub, h]

theorem containsSub_of_middle (pre post p : List Char) :
    containsSub (pre ++ p ++ post) p = true := by
  induction pre with
  | nil =>
    refine containsSub_of_isPrefixOf _ _ ?_
    simpa [List.isPrefixOf_iff_prefix] using ⟨post, by simp⟩
  | cons a pre ih =>
    simpa [List.cons_append] using containsSub_cons a _ p ih

theorem strContains_sandwich (pre q post : String) :
    strContains (pre ++ q ++ post) q = true := by
  unfold strContains
  simpa [String.data_append] using
    containsSub_of_middle pre.toList post.toList q.toList

theorem strContains_suffix (pre q : String) :
    strContains (pre ++ q) q = true := by
  have h := strContains_sandwich pre q ""
  simpa using h

theorem foldl_cond_add (p : String → Bool) (c : ℚ) (l : List String) :
    ∀ init : ℚ,
      l.foldl (fun acc kw => if p kw then acc + c else acc) init
        = init + c * l.countP p := by
  induction l with
  | nil => intro init; simp
  | cons a t ih =>
    intro init
    by_cases h : p a
    · simp only [List.foldl_cons, h, if_true, List.countP_cons, h, ih]
      push_cast
      ring
    · simp only [List.foldl_cons, h, if_false, List.countP_cons, h, ih]
      simp [h]

theorem foldl_clamp_ge_one (p : String → Bool) (l : List String) :
    ∀ init : ℚ, 1 ≤ init →
      1 ≤ l.foldl (fun acc kw => if p kw then goMax 1 (acc - 5) else acc) init := by
  induction l with
  | nil => intro init h; simpa using h
  | cons a t ih =>
    intro init h
    by_cases hp : p a
    · simp only [List.foldl_cons, hp, if_true]
      refine ih _ ?_
      unfold goMax
      split_ifs with hle
      · exact hle
      · exact le_refl 1
    · simp only [List.foldl_cons, hp, if_false]
      exact ih init h

theorem foldl_clamp_of_none (p : String → Bool) (l : List String)
    (h : ∀ kw ∈ l, p kw = false) (init : ℚ) :
    l.foldl (fun acc kw => if p kw then goMax 1 (acc - 5) else acc) init = init := by
  induction l with
  | nil => simp
  | cons a t ih =>
    have ha : p a = false := h a (by simp)
    simp only [List.foldl_cons, ha, if_false]
    exact ih (fun kw hkw => h kw (by simp [hkw]))

theorem stressAfterKeywords_ge_one (q : String) : 1 ≤ stressAfterKeywords q := by
  unfold stressAfterKeywords
  simp only [foldl_cond_add]
  apply foldl_clamp_ge_one
  have h1 : (0:ℚ) ≤ highStressKeywords.countP (fun kw => strContains q kw) :=
    Nat.cast_nonneg _
  have h2 : (0:ℚ) ≤ mediumStressKeywords.countP (fun kw => strContains q kw) :=
    Nat.cast_nonneg _
  nlinarith

theorem applyPersonality_lower (pl : String) (x : ℚ) (hx : 0 ≤ x) :
    7/10 * x ≤ applyPersonality pl x := by
  unfold applyPersonality
  split_ifs <;> nlinarith

theorem tick_inv (s : GameSession) (h0 : 0 ≤ s.remainingTime)
    (h1 : s.gameOver = false → 1 ≤ s.remainingTime) :
    0 ≤ (tick s).remainingTime ∧
    ((tick s).gameOver = false → 1 ≤ (tick s).remainingTime) := by
  simp only [tick]
  split_ifs with ht hcond hr
  · have hgo : s.gameOver = false := by
      rcases Bool.and_eq_true_iff.mp hcond with ⟨-, hb⟩
      simpa using hb
    have h2 := h1 hgo
    constructor
    · simp only []
      omega
    · intro hfalse
      simp at hfalse
  · constructor
    · simp only []
      omega
    · intro _
      simp only []
      omega
  · exact ⟨h0, h1⟩
  · exact ⟨h0, h1⟩

/-! ## Claim theorems -/

/-- Claim C8: starting from a session with the timer enabled, the game not
over and two seconds remaining, two ticks of the countdown make the game
over with exactly zero seconds left, and the tick step never drives the
remaining time negative along any tick sequence from that state. -/
theorem countdown_two_ticks :
    (tick (tick sessionTimer2)).gameOver = true ∧
    (tick (tick sessionTimer2)).remainingTime = 0 ∧
    ∀ n : ℕ, 0 ≤ (tick^[n] sessionTimer2).remainingTime := by
  refine ⟨by decide, by decide, ?_⟩
  have key : ∀ n : ℕ, 0 ≤ (tick^[n] sessionTimer2).remainingTime ∧
      ((tick^[n] sessionTimer2).gameOver = false →
        1 ≤ (tick^[n] sessionTimer2).remainingTime) := by
    intro n
    induction n with
    | zero => exact ⟨by decide, fun _ => by decide⟩
    | succ k ih =>
      rw [Function.iterate_succ_apply']
      exact tick_inv _ ih.1 ih.2
  exact fun n => (key n).1

/-- Claim C2 counterexample: `ToggleTimer` has no `GameOver` guard, so the
`timer_enabled` field of a finished session is mutated by a later
toggle-timer request; the claim that no field but read accessors changes
after `game_over` is false as stated. -/
theorem finished_session_toggle_cex :
    finishedSessionEx.gameOver = true ∧
    finishedSessionEx.timerEnabled = true ∧
    (toggleTimer finishedSessionEx).1.timerEnabled = false := by
  decide

/-- Claim C2 (amended): once `game_over` is true, the tick step, an ask and
an accusation leave the session completely unchanged (the latter two
returning errors), but toggle-timer still flips `timer_enabled`. -/
theorem finished_session_ops_audit (now : Int)
    (llm : String → Except String String) (unmarshal : String → Option CharacterReply)
    (marshal : List Message → String) (characterName question suspect : String)
    (currentStress u : ℚ) (s : GameSession) (h : s.gameOver = true) :
    tick s = s ∧
    askCharacter now llm unmarshal marshal characterName question currentStress u s
      = (.error .gameOver, s) ∧
    makeAccusation now suspect s = (.error .gameOver, s) ∧
    (toggleTimer s).1 = { s with timerEnabled := !s.timerEnabled } := by
  refine ⟨?_, ?_, ?_, rfl⟩
  · simp [tick, h]
  · simp [askCharacter, h]
  · simp [makeAccusation, h]

/-- Claim C2 witness: the audit applied to the concrete finished session. -/
theorem finished_session_ops_audit_witness :
    tick finishedSessionEx = finishedSessionEx ∧
    askCharacter 0 (fun _ => Except.ok "hi") (fun _ => none) (fun _ => "")
      "Eleanor" "hello" 20 0 finishedSessionEx
      = (.error .gameOver, finishedSessionEx) ∧
    makeAccusation 0 "Eleanor" finishedSessionEx
      = (.error .gameOver, finishedSessionEx) ∧
    (toggleTimer finishedSessionEx).1
      = { finishedSessionEx with timerEnabled := !finishedSessionEx.timerEnabled } :=
  finished_session_ops_audit 0 (fun _ => Except.ok "hi") (fun _ => none) (fun _ => "")
    "Eleanor" "hello" "Eleanor" 20 0 finishedSessionEx (by decide)

/-- Claim C5: an accusation on an active session succeeds, its verdict is
correct exactly when the suspect string equals the killer string, the
session becomes game-over with the ticker stopped and nothing else changed,
and the reply always reveals killer, weapon and location; an accusation on
a finished session fails with the game-over error and changes nothing. -/
theorem accusation_spec (now : Int) (suspect : String) (s : GameSession) :
    (s.gameOver = false →
      ∃ resp : AccusationResponse,
        makeAccusation now suspect s
          = (.ok resp, { s with gameOver := true, tickerRunning := false }) ∧
        (resp.correct = true ↔ suspect = s.murder.killer) ∧
        resp.killer = s.murder.killer ∧
        resp.weapon = s.murder.weapon ∧
        resp.location = s.murder.location ∧
        resp.timeSpent = now - s.startedAt ∧
        resp.questions = s.questionsAsked) ∧
    (s.gameOver = true →
      makeAccusation now suspect s = (.error .gameOver, s)) := by
  constructor
  · intro h
    refine ⟨⟨suspect == s.murder.killer, s.murder.killer, s.murder.weapon,
        s.murder.location, now - s.startedAt, s.questionsAsked,
        if suspect == s.murder.killer then
          "🎉 Congratulations! You correctly identified " ++ s.murder.killer
            ++ " as the killer!"
        else
          "❌ Sorry, that\x27s incorrect. The real killer was " ++ s.murder.killer
            ++ "."⟩, ?_, beq_iff_eq, rfl, rfl, rfl, rfl, rfl⟩
    simp [makeAccusation, h]
  · intro h
    simp [makeAccusation, h]

/-- Claim C5 witness: accusing `"Eleanor"` on the active session yields a
correct verdict and a finished session; repeating it on the finished
session fails with the game-over error. -/
theorem accusation_spec_witness :
    (∃ resp : AccusationResponse,
      makeAccusation 60 "Eleanor" activeSessionEx
        = (.ok resp, { activeSessionEx with gameOver := true, tickerRunning := false }) ∧
      (resp.correct = true ↔ "Eleanor" = activeSessionEx.murder.killer) ∧
      resp.killer = activeSessionEx.murder.killer ∧
      resp.weapon = activeSessionEx.murder.weapon ∧
      resp.location = activeSessionEx.murder.location ∧
      resp.timeSpent = 60 - activeSessionEx.startedAt ∧
      resp.questions = activeSessionEx.questionsAsked) ∧
    makeAccusation 60 "Eleanor" finishedSessionEx
      = (.error .gameOver, finishedSessionEx) :=
  ⟨(accusation_spec 60 "Eleanor" activeSessionEx).1 (by decide),
   (accusation_spec 60 "Eleanor" finishedSessionEx).2 (by decide)⟩

/-- Claim C7: the stress-state label returned by the stress computation is a
function of the new stress value alone, given by the fixed thresholds; every
value at or above 85 maps to the single top-tier label, which the server
names `"nervous"` (reused) while the client's `getStressLabel` names it
`"Panicking"`. -/
theorem stress_state_thresholds :
    (∀ (q : String) (c : Character) (cs u : ℚ),
      (calculateStressResponse q c cs u).2
        = stressStateOf (calculateStressResponse q c cs u).1) ∧
    (∀ x : ℚ,
      (x < 25 → stressStateOf x = "calm") ∧
      (25 ≤ x → x < 40 → stressStateOf x = "composed") ∧
      (40 ≤ x → x < 55 → stressStateOf x = "nervous") ∧
      (55 ≤ x → x < 70 → stressStateOf x = "agitated") ∧
      (70 ≤ x → x < 85 → stressStateOf x = "stressed") ∧
      (85 ≤ x → stressStateOf x = "nervous" ∧ getStressLabel x = "Panicking")) := by
  constructor
  · intro q c cs u
    rfl
  · intro x
    unfold stressStateOf getStressLabel
    refine ⟨?_, ?_, ?_, ?_, ?_, ?_⟩ <;> intros <;> split_ifs <;>
      first
      | rfl
      | (exfalso; linarith)
      | (constructor <;> rfl)

/-- Claim C7 witness: the thresholds evaluated at one point per tier. -/
theorem stress_state_thresholds_witness :
    stressStateOf 10 = "calm" ∧ stressStateOf 30 = "composed" ∧
    stressStateOf 50 = "nervous" ∧ stressStateOf 60 = "agitated" ∧
    stressStateOf 80 = "stressed" ∧ stressStateOf 90 = "nervous" ∧
    getStressLabel 90 = "Panicking" :=
  ⟨(stress_state_thresholds.2 10).1 (by norm_num),
   (stress_state_thresholds.2 30).2.1 (by norm_num) (by norm_num),
   (stress_state_thresholds.2 50).2.2.1 (by norm_num) (by norm_num),
   (stress_state_thresholds.2 60).2.2.2.1 (by norm_num) (by norm_num),
   (stress_state_thresholds.2 80).2.2.2.2.1 (by norm_num) (by norm_num),
   ((stress_state_thresholds.2 90).2.2.2.2.2 (by norm_num)).1,
   ((stress_state_thresholds.2 90).2.2.2.2.2 (by norm_num)).2⟩

/-- Claim C4: the layered parse of a collaborator reply is total — an error
is returned exactly when the collaborator call itself fails; otherwise the
whole text is used if it unmarshals, else the substring from the first
opening brace to the last closing brace if that unmarshals, else the whole
raw text with emotion `"neutral"`; and on the spec's worked example the
brace span handed to the JSON decoder is exactly the embedded object. -/
theorem reply_parse_total_spec
    (unmarshal : String → Option CharacterReply)
    (llm : String → Except String String) (prompt : String) :
    (∀ e, llm prompt = .error e →
      GetCharacterResponse unmarshal llm prompt = .error e) ∧
    (∀ raw, llm prompt = .ok raw →
      (∀ r, unmarshal raw = some r →
        GetCharacterResponse unmarshal llm prompt = .ok r) ∧
      (unmarshal raw = none →
        ∀ r, extractJSONFromResponse unmarshal raw = some r →
          GetCharacterResponse unmarshal llm prompt = .ok r) ∧
      (unmarshal raw = none → extractJSONFromResponse unmarshal raw = none →
        GetCharacterResponse unmarshal llm prompt = .ok ⟨raw, "neutral"⟩) ∧
      ∃ r, GetCharacterResponse unmarshal llm prompt = .ok r) ∧
    (∀ um2 : String → Option CharacterReply,
      extractJSONFromResponse um2 exampleReplyRaw = um2 exampleReplyJSON) := by
  refine ⟨?_, ?_, ?_⟩
  · intro e he
    simp [GetCharacterResponse, he]
  · intro raw hraw
    refine ⟨?_, ?_, ?_, ?_⟩
    · intro r hr
      simp [GetCharacterResponse, hraw, hr]
    · intro hnone r hext
      simp [GetCharacterResponse, hraw, hnone, hext]
    · intro hnone hext
      simp [GetCharacterResponse, hraw, hnone, hext]
    · cases hum : unmarshal raw with
      | some r => exact ⟨r, by simp [GetCharacterResponse, hraw, hum]⟩
      | none =>
        cases hex : extractJSONFromResponse unmarshal raw with
        | some r => exact ⟨r, by simp [GetCharacterResponse, hraw, hum, hex]⟩
        | none => exact ⟨⟨raw, "neutral"⟩, by simp [GetCharacterResponse, hraw, hum, hex]⟩
  · intro um2
    rfl

/-- Claim C4 witness: a brace-free prose reply degrades to the raw text
with emotion `"neutral"` rather than an error. -/
theorem reply_parse_total_spec_witness :
    GetCharacterResponse (fun _ => none) (fun _ => Except.ok "plain prose") "p"
      = .ok ⟨"plain prose", "neutral"⟩ :=
  ((reply_parse_total_spec (fun _ => none) (fun _ => Except.ok "plain prose") "p").2.1
      "plain prose" rfl).2.2.1 rfl (by decide)

theorem addQuestion_conversation_empty (now : Int) (question : String)
    (murder : Murder) (c : Character) (hc : c.conversation = []) :
    (addQuestion now question murder c).conversation
      = [⟨"system", scenarioText question murder c, "", now⟩,
         ⟨"user", "Detective\x27s question: " ++ question, "", now⟩] := by
  simp [addQuestion, Character.IsInitialMessage, hc]

theorem addQuestion_conversation_nonempty (now : Int) (question : String)
    (murder : Murder) (c : Character) (hc : c.conversation ≠ []) :
    (addQuestion now question murder c).conversation
      = c.conversation ++ [⟨"user", followUpText question, "", now⟩] := by
  have hlen : (c.conversation.length == 0) = false := by
    simpa [List.length_eq_zero] using hc
  simp [addQuestion, Character.IsInitialMessage, hlen]

theorem askQuestion_conv_split (now : Int) (llm : String → Except String String)
    (unmarshal : String → Option CharacterReply) (marshal : List Message → String)
    (question : String) (murder : Murder) (c : Character) :
    ∃ t2, (AskQuestion now llm unmarshal marshal question murder c).2.conversation
        = (addQuestion now question murder c).conversation ++ t2 ∧
      ∀ m ∈ t2, m.role = "assistant" := by
  unfold AskQuestion
  cases h : GetCharacterResponse unmarshal llm
      (marshal (addQuestion now question murder c).conversation) with
  | error e => exact ⟨[], by simp [h], by simp⟩
  | ok resp =>
    exact ⟨[⟨"assistant", resp.response, resp.emotion, now⟩], by simp [h], by simp⟩

/-- Claim C9: an ask extends a character's transcript strictly by appending
(in question order); the persona/system message is synthesized exactly when
the transcript is empty (the `IsInitialMessage` gate) and then stands first;
a non-empty transcript only ever gains non-system entries, and the
"first entry is the unique system message" invariant is preserved. -/
theorem transcript_append_only_spec
    (now : Int) (llm : String → Except String String)
    (unmarshal : String → Option CharacterReply) (marshal : List Message → String)
    (question : String) (murder : Murder) (c : Character) :
    (c.IsInitialMessage = true ↔ c.conversation = []) ∧
    (∃ t, (AskQuestion now llm unmarshal marshal question murder c).2.conversation
        = c.conversation ++ t ∧
      (c.conversation ≠ [] → ∀ m ∈ t, m.role ≠ "system")) ∧
    (c.conversation = [] →
      ∃ rest, (AskQuestion now llm unmarshal marshal question murder c).2.conversation
        = Message.mk "system" (scenarioText question murder c) "" now :: rest) ∧
    (firstIsSystemOnce c.conversation →
      firstIsSystemOnce
        (AskQuestion now llm unmarshal marshal question murder c).2.conversation) := by
  obtain ⟨t2, ht2, ht2r⟩ :=
    askQuestion_conv_split now llm unmarshal marshal question murder c
  refine ⟨?_, ?_, ?_, ?_⟩
  · simp [Character.IsInitialMessage, List.length_eq_zero]
  · by_cases hc : c.conversation = []
    · refine ⟨[⟨"system", scenarioText question murder c, "", now⟩,
          ⟨"user", "Detective\x27s question: " ++ question, "", now⟩] ++ t2, ?_, ?_⟩
      · rw [ht2, addQuestion_conversation_empty now question murder c hc, hc]
        simp
      · intro hne
        exact absurd hc hne
    · refine ⟨[⟨"user", followUpText question, "", now⟩] ++ t2, ?_, ?_⟩
      · rw [ht2, addQuestion_conversation_nonempty now question murder c hc]
        simp
      · intro _ m hm
        rcases List.mem_append.mp hm with h1 | h1
        · simp at h1
          subst h1
          simp
        · rw [ht2r m h1]
          simp
  · intro hc
    refine ⟨⟨"user", "Detective\x27s question: " ++ question, "", now⟩ :: t2, ?_⟩
    rw [ht2, addQuestion_conversation_empty now question murder c hc]
    simp
  · intro hfirst
    by_cases hc : c.conversation = []
    · rw [ht2, addQuestion_conversation_empty now question murder c hc]
      simp only [List.cons_append, List.nil_append, firstIsSystemOnce]
      refine ⟨by trivial, ?_⟩
      intro m2 hm2
      rcases List.mem_cons.mp hm2 with h1 | h1
      · subst h1
        simp
      · rw [ht2r m2 h1]
        simp
    · cases hconv : c.conversation with
      | nil => exact absurd hconv hc
      | cons m0 rest =>
        rw [hconv] at hfirst
        obtain ⟨hm0, hrest⟩ := hfirst
        rw [ht2, addQuestion_conversation_nonempty now question murder c hc, hconv]
        simp only [List.cons_append, firstIsSystemOnce]
        refine ⟨hm0, ?_⟩
        intro m2 hm2
        simp only [List.mem_append, List.mem_singleton] at hm2
        rcases hm2 with (h1 | h1) | h1
        · exact hrest m2 h1
        · subst h1
          simp
        · rw [ht2r m2 h1]
          simp

/-- Claim C9 witness: asking the fresh character `calmCharEx` seeds its
transcript with the persona/system message as the first entry. -/
theorem transcript_append_only_spec_witness :
    ∃ rest, (AskQuestion 0 (fun _ => Except.ok "hello there")
        (fun _ => none) (fun _ => "") "hello" mysteryEx calmCharEx).2.conversation
      = Message.mk "system" (scenarioText "hello" mysteryEx calmCharEx) "" 0 :: rest :=
  (transcript_append_only_spec 0 (fun _ => Except.ok "hello there")
    (fun _ => none) (fun _ => "") "hello" mysteryEx calmCharEx).2.2.1 rfl

/-- Claim C10: when the collaborator call fails on first contact, the
transcript nevertheless keeps the freshly created persona entry and the
appended user question with no assistant entry, and retrying the same
question yields a serialized transcript holding exactly two user entries,
each containing that question. -/
theorem failed_ask_retained_question_spec
    (now1 now2 : Int) (llm : String → Except String String)
    (unmarshal : String → Option CharacterReply) (marshal : List Message → String)
    (question : String) (murder : Murder) (c : Character) (e : String)
    (hc : c.conversation = [])
    (hllm : ∀ p, llm p = Except.error e) :
    (AskQuestion now1 llm unmarshal marshal question murder c).1 = .error e ∧
    (AskQuestion now1 llm unmarshal marshal question murder c).2.conversation
      = [⟨"system", scenarioText question murder c, "", now1⟩,
         ⟨"user", "Detective\x27s question: " ++ question, "", now1⟩] ∧
    (∀ m ∈ (AskQuestion now1 llm unmarshal marshal question murder c).2.conversation,
      m.role ≠ "assistant") ∧
    (((addQuestion now2 question murder
          (AskQuestion now1 llm unmarshal marshal question murder c).2).conversation.filter
        (fun m => m.role == "user")).length = 2 ∧
      ∀ m ∈ (addQuestion now2 question murder
          (AskQuestion now1 llm unmarshal marshal question murder c).2).conversation.filter
          (fun m => m.role == "user"),
        strContains m.content question = true) := by
  have hrep : ∀ p, GetCharacterResponse unmarshal llm p = .error e := by
    intro p
    simp [GetCharacterResponse, hllm]
  have hconv1 : (AskQuestion now1 llm unmarshal marshal question murder c).2.conversation
      = [⟨"system", scenarioText question murder c, "", now1⟩,
         ⟨"user", "Detective\x27s question: " ++ question, "", now1⟩] := by
    simp only [AskQuestion, hrep]
    exact addQuestion_conversation_empty now1 question murder c hc
  have herr : (AskQuestion now1 llm unmarshal marshal question murder c).1 = .error e := by
    simp only [AskQuestion, hrep]
  have hne : (AskQuestion now1 llm unmarshal marshal question murder c).2.conversation ≠ [] := by
    rw [hconv1]
    simp
  have hconv2 : (addQuestion now2 question murder
        (AskQuestion now1 llm unmarshal marshal question murder c).2).conversation
      = [⟨"system", scenarioText question murder c, "", now1⟩,
         ⟨"user", "Detective\x27s question: " ++ question, "", now1⟩,
         ⟨"user", followUpText question, "", now2⟩] := by
    rw [addQuestion_conversation_nonempty now2 question murder _ hne, hconv1]
    simp
  refine ⟨herr, hconv1, ?_, ?_, ?_⟩
  · intro m hm
    rw [hconv1] at hm
    rcases List.mem_cons.mp hm with h1 | h1
    · subst h1; simp
    · rcases List.mem_cons.mp h1 with h2 | h2
      · subst h2; simp
      · simp at h2
  · rw [hconv2]
    rfl
  · intro m hm
    rw [hconv2] at hm
    simp only [List.mem_filter] at hm
    rcases List.mem_cons.mp hm.1 with h1 | h1
    · subst h1
      simp at hm
    · rcases List.mem_cons.mp h1 with h2 | h2
      · subst h2
        exact strContains_suffix "Detective\x27s question: " question
      · simp only [List.mem_singleton] at h2
        subst h2
        exact strContains_sandwich "Detective\x27s follow up question: " question
          "\n\nIMPORTANT: You MUST respond in this exact JSON format: \x7b\"response\": \"your character response here\", \"emotion\": \"your emotional state\"\x7d"

/-- Claim C10 witness: the failed first ask and the retry transcript on the
concrete fresh character. -/
theorem failed_ask_retained_question_spec_witness :
    (AskQuestion 0 (fun _ => Except.error "timeout") (fun _ => none) (fun _ => "")
        "where is the candlestick" mysteryEx calmCharEx).1 = .error "timeout" ∧
    (((addQuestion 1 "where is the candlestick" mysteryEx
        (AskQuestion 0 (fun _ => Except.error "timeout") (fun _ => none) (fun _ => "")
          "where is the candlestick" mysteryEx calmCharEx).2).conversation.filter
        (fun m => m.role == "user")).length = 2) := by
  have h := failed_ask_retained_question_spec 0 1 (fun _ => Except.error "timeout")
    (fun _ => none) (fun _ => "") "where is the candlestick" mysteryEx calmCharEx
    "timeout" rfl (fun _ => rfl)
  exact ⟨h.1, h.2.2.2.1⟩

/-- Claim C3 counterexample: the questions-asked counter is incremented
before the collaborator is called, so a failed ask leaves the counter at
its old value plus one, not unchanged; the claim that the attempt is not
applied to the counter is false as stated. -/
theorem ask_failure_counter_cex :
    activeSessionEx.gameOver = false ∧
    activeSessionEx.questionsAsked = 0 ∧
    (askCharacter 0 (fun _ => Except.error "unavailable") (fun _ => none) (fun _ => "")
        "Eleanor" "hello" 20 0 activeSessionEx).1
      = .error (.collaboratorUnavailable "unavailable") ∧
    (askCharacter 0 (fun _ => Except.error "unavailable") (fun _ => none) (fun _ => "")
        "Eleanor" "hello" 20 0 activeSessionEx).2.questionsAsked = 1 ∧
    (askCharacter 0 (fun _ => Except.error "unavailable") (fun _ => none) (fun _ => "")
        "Eleanor" "hello" 20 0 activeSessionEx).2.gameOver = false :=
  ⟨rfl, rfl, rfl, rfl, rfl⟩

/-- Claim C3 (amended): when the collaborator fails during an ask on an
active session with a matching character, the request errors with
`CollaboratorUnavailable` and the session stays active (`game_over` false),
but the questions-asked counter has already advanced by one. -/
theorem ask_failure_counter_spec
    (now : Int) (llm : String → Except String String)
    (unmarshal : String → Option CharacterReply) (marshal : List Message → String)
    (characterName question : String) (cs u : ℚ) (s : GameSession)
    (e : String) (i : ℕ) (ch : Character)
    (hg : s.gameOver = false)
    (hfind : goFindCharacter s.murder.characters characterName = some (i, ch))
    (hllm : ∀ p, llm p = Except.error e) :
    (askCharacter now llm unmarshal marshal characterName question cs u s).1
      = .error (.collaboratorUnavailable e) ∧
    (askCharacter now llm unmarshal marshal characterName question cs u s).2.gameOver
      = false ∧
    (askCharacter now llm unmarshal marshal characterName question cs u s).2.questionsAsked
      = s.questionsAsked + 1 := by
  have hrep : ∀ p, GetCharacterResponse unmarshal llm p = .error e := by
    intro p
    simp [GetCharacterResponse, hllm]
  refine ⟨?_, ?_, ?_⟩ <;>
    simp [askCharacter, hg, hfind, AskQuestion, hrep]

/-- Claim C3 witness: the amended statement applied to the concrete active
session with a failing collaborator. -/
theorem ask_failure_counter_spec_witness :
    (askCharacter 0 (fun _ => Except.error "boom") (fun _ => none) (fun _ => "")
        "James" "hello" 20 0 activeSessionEx).1
      = .error (.collaboratorUnavailable "boom") ∧
    (askCharacter 0 (fun _ => Except.error "boom") (fun _ => none) (fun _ => "")
        "James" "hello" 20 0 activeSessionEx).2.gameOver = false ∧
    (askCharacter 0 (fun _ => Except.error "boom") (fun _ => none) (fun _ => "")
        "James" "hello" 20 0 activeSessionEx).2.questionsAsked
      = activeSessionEx.questionsAsked + 1 :=
  ask_failure_counter_spec 0 (fun _ => Except.error "boom") (fun _ => none) (fun _ => "")
    "James" "hello" 20 0 activeSessionEx "boom" 1
    ⟨"James", "calm", "", [], true, []⟩ (by decide) (by decide) (fun _ => rfl)

/-- Claim C1 counterexample: the code clamps only from above
(`math.Min(100, …)`); there is no lower clamp at 0. The calming question
`"weather"` with a `"calm"` personality, current stress `0` (in `[0,100]`)
and random draw `u = 0` (noise `-5`) returns `-4.3 < 0`. -/
theorem stress_below_zero_cex :
    (calculateStressResponse "weather" calmCharEx 0 0).1 = -43/10 ∧
    (calculateStressResponse "weather" calmCharEx 0 0).1 < 0 := by
  have h : (calculateStressResponse "weather" calmCharEx 0 0).1 = -43/10 := by
    simp [calculateStressResponse, stressAfterKeywords, applyPersonality, goMin, goMax,
      highStressKeywords, mediumStressKeywords, lowStressKeywords, toLowerStr,
      strContains, containsSub, calmCharEx]
    norm_num
  exact ⟨h, by rw [h]; norm_num⟩

/-- Claim C1 (amended): for every question, personality, current stress in
`[0,100]` and random draw, the new stress value is clamped above at 100,
but it is not clamped below at 0 — its true lower bound is
`currentStress - 4.3` (minimal keyword increase 1, minimal personality
multiplier 0.7, minimal noise −5), which can be negative. -/
theorem stress_bounds_amended (q : String) (c : Character) (cs u : ℚ)
    (hcs0 : 0 ≤ cs) (hcs1 : cs ≤ 100) (hu : 0 ≤ u) :
    (calculateStressResponse q c cs u).1 ≤ 100 ∧
    cs - 43/10 ≤ (calculateStressResponse q c cs u).1 := by
  have h1 : 1 ≤ stressAfterKeywords (toLowerStr q) := stressAfterKeywords_ge_one _
  have h2 : 7/10 * stressAfterKeywords (toLowerStr q)
      ≤ applyPersonality (toLowerStr c.personality) (stressAfterKeywords (toLowerStr q)) :=
    applyPersonality_lower _ _ (by linarith)
  simp only [calculateStressResponse, goMin]
  split_ifs with h
  · exact ⟨le_refl 100, by linarith⟩
  · constructor <;> linarith

/-- Claim C1 witness: the amended bounds at a concrete valid input. -/
theorem stress_bounds_amended_witness :
    (calculateStressResponse "weather" calmCharEx 50 (1/2)).1 ≤ 100 ∧
    50 - 43/10 ≤ (calculateStressResponse "weather" calmCharEx 50 (1/2)).1 :=
  stress_bounds_amended "weather" calmCharEx 50 (1/2) (by norm_num) (by norm_num)
    (by norm_num)

/-- Claim C6: for a question whose lower-cased text matches exactly one
high-stress keyword and no medium- or low-stress keyword, asked of a
personality containing `"nervous"` and none of the other modifier words,
the increase before noise is exactly `(5+15) * 1.3 = 26`, so the returned
stress is `min(100, currentStress + 26 + noise)` with noise
`(u - 1/2) * 10 ∈ [-5, 5]` for a draw `u ∈ [0, 1)`. -/
theorem nervous_high_keyword_spec (q : String) (c : Character) (cs u : ℚ)
    (hhigh : highStressKeywords.countP (strContains (toLowerStr q)) = 1)
    (hmed : ∀ kw ∈ mediumStressKeywords, strContains (toLowerStr q) kw = false)
    (hlow : ∀ kw ∈ lowStressKeywords, strContains (toLowerStr q) kw = false)
    (hn : strContains (toLowerStr c.personality) "nervous" = true)
    (hcalm : strContains (toLowerStr c.personality) "calm" = false)
    (hsec : strContains (toLowerStr c.personality) "secretive" = false)
    (hagg : strContains (toLowerStr c.personality) "aggressive" = false) :
    applyPersonality (toLowerStr c.personality) (stressAfterKeywords (toLowerStr q)) = 26 ∧
    (calculateStressResponse q c cs u).1 = goMin 100 (cs + (26 + (u - 1/2) * 10)) ∧
    (0 ≤ u → u < 1 → -5 ≤ (u - 1/2) * 10 ∧ (u - 1/2) * 10 ≤ 5) := by
  have hm0 : mediumStressKeywords.countP (strContains (toLowerStr q)) = 0 := by
    rw [List.countP_eq_zero]
    intro kw hkw
    simp [hmed kw hkw]
  have hSAK : stressAfterKeywords (toLowerStr q) = 20 := by
    unfold stressAfterKeywords
    simp only [foldl_cond_add]
    rw [foldl_clamp_of_none _ _ hlow, hhigh, hm0]
    norm_num
  have happ : applyPersonality (toLowerStr c.personality) 20 = 26 := by
    unfold applyPersonality
    simp only [hn, hcalm, hsec, hagg]
    norm_num
  refine ⟨by rw [hSAK]; exact happ, ?_, ?_⟩
  · simp only [calculateStressResponse, hSAK, happ]
  · intro h0 h1
    constructor <;> nlinarith

/-- Claim C6 witness: the question `"tell me about the murder"` (one high
keyword) asked of a purely `"nervous"` personality at stress 20 with the
median draw. -/
theorem nervous_high_keyword_spec_witness :
    applyPersonality (toLowerStr (Character.mk "Nora" "nervous" "" [] true []).personality)
      (stressAfterKeywords (toLowerStr "tell me about the murder")) = 26 ∧
    (calculateStressResponse "tell me about the murder"
        (Character.mk "Nora" "nervous" "" [] true []) 20 (1/2)).1
      = goMin 100 (20 + (26 + ((1:ℚ)/2 - 1/2) * 10)) ∧
    ((0:ℚ) ≤ 1/2 → (1:ℚ)/2 < 1 →
      -5 ≤ ((1:ℚ)/2 - 1/2) * 10 ∧ ((1:ℚ)/2 - 1/2) * 10 ≤ 5) :=
  nervous_high_keyword_spec "tell me about the murder"
    (Character.mk "Nora" "nervous" "" [] true []) 20 (1/2)
    (by decide) (by decide) (by decide) (by decide) (by decide) (by decide) (by decide)

end GoFigure
